import Mathlib

/-!
Shallow embedding of `mindsdb/integrations/handlers/db2_handler/db2_handler.py`
(class `DB2Handler`).

The vendor driver (`ibm_db_dbi`) is external; it is modelled as an abstract
`Driver` record of two fallible operations (`pconnect`, cursor `execute`),
with connection handles as natural numbers.  Every handler method is embedded
as a pure function from a `HandlerState` to a result, a new state and a trace
of driver-level events (`pconnect`, `execute`, `commit`, `rollback`, `close`),
so that claims about which driver calls happen can be stated as facts about
the trace.  Python exceptions are modelled by `Except PyExn`.
-/

/-- A Python exception value, carrying its `str(e)` message text. -/
inductive PyExn where
  | valueError (msg : String)
  | attributeError (msg : String)
deriving DecidableEq, Repr

/-- `str(e)` for a modelled Python exception. -/
def PyExn.msg : PyExn → String
  | .valueError m => m
  | .attributeError m => m

/-- The `connection_data` mapping.  Only the six keys the source reads
(`host`, `user`, `password`, `database`, `port`, `schema`) are relevant;
a `none` field models an absent key. -/
structure ConnectionData where
  host : Option String
  user : Option String
  password : Option String
  database : Option String
  port : Option String
  schema : Option String
deriving DecidableEq, Repr

/-- Line 61: `all(key in self.connection_data for key in ['host', 'user', 'password', 'database'])`. -/
def hasRequired (cd : ConnectionData) : Bool :=
  cd.host.isSome && cd.user.isSome && cd.password.isSome && cd.database.isSome

/-- Lines 64-71: the f-string connection string, plus the optional
`PORT` and `CURRENTSCHEMA` segments.  An absent key renders as the empty
string (in the source this point is only reached when the required keys
exist, so the `getD` defaults are never observed there). -/
def buildConnectionString (cd : ConnectionData) : String :=
  let base := "DRIVER=IBM DB2 ODBC DRIVER;DATABASE=" ++ cd.database.getD "" ++
    ";HOST=" ++ cd.host.getD "" ++ ";PROTOCOL=TCPIP;UID=" ++ cd.user.getD "" ++
    ";PWD=" ++ cd.password.getD "" ++ ";"
  let withPort :=
    match cd.port with
    | some p => base ++ "PORT=" ++ p ++ ";"
    | none => base
  match cd.schema with
  | some sc => withPort ++ "CURRENTSCHEMA=" ++ sc ++ ";"
  | none => withPort

/-- Python `str.upper()` as used on line 125, modelled as uppercasing
every character of the text. -/
def pyUpper (s : String) : String := ⟨s.data.map Char.toUpper⟩

/-- What the driver cursor reports after a successful `execute`:
whether a result set was produced (`cur._result_set_produced`), the
`cur.description` entries (first component is the column name), and the
rows `cur.fetchall()` would return. -/
structure ExecOutcome where
  resultSetProduced : Bool
  description : List (String × String)
  rows : List (List String)
deriving DecidableEq, Repr

/-- Abstract model of the external `ibm_db_dbi` driver: `pconnect` either
yields a connection handle or raises with a message, and executing a SQL
text on a connection either yields an `ExecOutcome` or raises with a
message. -/
structure Driver where
  pconnect : String → Except String Nat
  execute : Nat → String → Except String ExecOutcome

/-- One driver-level call made by the handler. -/
inductive Event where
  | pconnectCall (connStr : String)
  | executeCall (q : String)
  | commitCall
  | rollbackCall
  | closeCall
deriving DecidableEq, Repr

/-- The mutable fields of a `DB2Handler` instance: `self.connection_data`,
`self.connection` (`None` or a driver handle) and `self.is_connected`. -/
structure HandlerState where
  connection_data : ConnectionData
  connection : Option Nat
  is_connected : Bool
deriving DecidableEq, Repr

/-- `RESPONSE_TYPE` values used by this handler. -/
inductive RESPONSE_TYPE where
  | TABLE
  | OK
  | ERROR
deriving DecidableEq, Repr

/-- The `pd.DataFrame(result, columns=[...])` payload: named columns and rows. -/
structure DataFrame where
  columns : List String
  rows : List (List String)
deriving DecidableEq, Repr

/-- `HandlerResponse`: a response type plus the optional keyword arguments
this handler passes (`data_frame`, `error_message`). -/
structure Response where
  resp_type : RESPONSE_TYPE
  data_frame : Option DataFrame
  error_message : Option String
deriving DecidableEq, Repr

/-- `Response(RESPONSE_TYPE.TABLE, data_frame=df)`. -/
def Response.mkTable (df : DataFrame) : Response := ⟨.TABLE, some df, none⟩

/-- `Response(RESPONSE_TYPE.OK)`. -/
def Response.mkOk : Response := ⟨.OK, none, none⟩

/-- `Response(RESPONSE_TYPE.ERROR, error_message=msg)`. -/
def Response.mkError (msg : String) : Response := ⟨.ERROR, none, some msg⟩

/-- `HandlerStatusResponse`: success flag and optional error message. -/
structure StatusResponse where
  success : Bool
  error_message : Option String
deriving DecidableEq, Repr

namespace DB2Handler

/-- Lines 46-78, `DB2Handler.connect`.  If already connected it returns
`self.connection`.  Missing required keys raise `ValueError` before the
connection string is built.  Otherwise `ibm_db_dbi.pconnect` is attempted:
on success the handle is stored and `is_connected` set; on a driver
exception the source CATCHES the exception, logs it, and falls off the end
of the function, returning Python `None` with the state unchanged. -/
def connect (drv : Driver) (s : HandlerState) :
    Except PyExn (Option Nat) × HandlerState × List Event :=
  if s.is_connected then
    (.ok s.connection, s, [])
  else if hasRequired s.connection_data = false then
    (.error (.valueError "Required parameters (host, user, password, database) must be provided."), s, [])
  else
    match drv.pconnect (buildConnectionString s.connection_data) with
    | .ok c =>
      (.ok (some c), { s with connection := some c, is_connected := true },
        [.pconnectCall (buildConnectionString s.connection_data)])
    | .error _ =>
      (.ok none, s, [.pconnectCall (buildConnectionString s.connection_data)])

/-- Lines 80-88, `DB2Handler.disconnect`.  A no-op when not connected;
otherwise `self.connection.close()` (an `AttributeError` if the handle is
Python `None`) and the flag is cleared.  The handle itself is kept. -/
def disconnect (s : HandlerState) :
    Except PyExn Unit × HandlerState × List Event :=
  if s.is_connected = false then
    (.ok (), s, [])
  else
    match s.connection with
    | none => (.error (.attributeError "NoneType object has no attribute close"), s, [])
    | some _ => (.ok (), { s with is_connected := false }, [.closeCall])

/-- Lines 90-112, `DB2Handler.check_connection`.  Starts from
`StatusResponse(False)`, records whether it will need to close, tries
`connect` (setting `success = True` when no exception propagates, and on an
exception storing `str(e)`), then in the `finally` block disconnects when a
successful check had opened the connection, and clears a stale
`is_connected` flag when the check failed. -/
def check_connection (drv : Driver) (s : HandlerState) :
    Except PyExn StatusResponse × HandlerState × List Event :=
  match connect drv s with
  | (.ok _, s1, ev1) =>
    if !s.is_connected then
      match disconnect s1 with
      | (.ok _, s2, ev2) => (.ok ⟨true, none⟩, s2, ev1 ++ ev2)
      | (.error e, s2, ev2) => (.error e, s2, ev1 ++ ev2)
    else
      (.ok ⟨true, none⟩, s1, ev1)
  | (.error e, s1, ev1) =>
    if s1.is_connected then
      (.ok ⟨false, some e.msg⟩, { s1 with is_connected := false }, ev1)
    else
      (.ok ⟨false, some e.msg⟩, s1, ev1)

/-- Lines 147-150 of `native_query`: after the `with` block, close the
connection again when the call had opened it (`need_to_close`), and return
the response built inside the block.  An exception from `disconnect` would
propagate. -/
def close_if_needed (need_to_close : Bool) (response : Response)
    (s1 : HandlerState) (ev : List Event) :
    Except PyExn Response × HandlerState × List Event :=
  if need_to_close then
    match disconnect s1 with
    | (.ok _, s2, ev3) => (.ok response, s2, ev ++ ev3)
    | (.error e, s2, ev3) => (.error e, s2, ev ++ ev3)
  else
    (.ok response, s1, ev)

/-- Lines 114-150, `DB2Handler.native_query`.  Records whether it will need
to close, UPPERCASES the whole query text (line 125: `query = query.upper()`),
connects (a `ValueError` from `connect` propagates; a swallowed driver
failure leaves `conn = None`, so `conn.cursor()` raises `AttributeError`),
executes the uppercased text, builds a TABLE response from
`cur.description`/`cur.fetchall()` when a result set was produced and an OK
response otherwise, commits on success and rolls back on an execution
exception (returning an ERROR response with `str(e)`), then disconnects if
it had opened the connection. -/
def native_query (drv : Driver) (s : HandlerState) (query : String) :
    Except PyExn Response × HandlerState × List Event :=
  match connect drv s with
  | (.error e, s1, ev1) => (.error e, s1, ev1)
  | (.ok none, s1, ev1) =>
    (.error (.attributeError "NoneType object has no attribute cursor"), s1, ev1)
  | (.ok (some c), s1, ev1) =>
    match drv.execute c (pyUpper query) with
    | .ok out =>
      if out.resultSetProduced then
        close_if_needed (!s.is_connected)
          (Response.mkTable ⟨out.description.map (fun x => x.1), out.rows⟩)
          s1 (ev1 ++ [.executeCall (pyUpper query), .commitCall])
      else
        close_if_needed (!s.is_connected) Response.mkOk
          s1 (ev1 ++ [.executeCall (pyUpper query), .commitCall])
    | .error msg =>
      close_if_needed (!s.is_connected) (Response.mkError msg)
        s1 (ev1 ++ [.executeCall (pyUpper query), .rollbackCall])

/-- An abstract query AST node (`mindsdb_sql ASTNode`); its structure is
irrelevant to this handler, which only ever renders it to text. -/
structure ASTNode where
  node_id : Nat
deriving DecidableEq, Repr

/-- Lines 152-164, `DB2Handler.query`.  The external renderer
`SqlalchemyRender(DB2Dialect).get_string` is modelled as an abstract
function `render` from AST nodes to SQL text; the method renders and then
calls `native_query` on the rendered text. -/
def query (drv : Driver) (render : ASTNode → String) (s : HandlerState)
    (q : ASTNode) : Except PyExn Response × HandlerState × List Event :=
  let query_str := render q
  native_query drv s query_str

end DB2Handler

/-- Spec-side definition for the delegation claim about `query`: the spec
says `query` renders the abstract node with the external DB2-dialect
renderer and returns exactly what `native_query` returns on that text. -/
def querySpec (drv : Driver) (render : DB2Handler.ASTNode → String)
    (s : HandlerState) (q : DB2Handler.ASTNode) :
    Except PyExn Response × HandlerState × List Event :=
  DB2Handler.native_query drv s (render q)

/-! ### Concrete fixtures for counterexamples and witnesses -/

/-- A `connection_data` mapping with all four required keys (and no optional ones). -/
def fullData : ConnectionData :=
  ⟨some "db2.example.com", some "admin", some "pw", some "SAMPLE", none, none⟩

/-- A `connection_data` mapping missing the `password` key. -/
def missingData : ConnectionData :=
  ⟨some "db2.example.com", some "admin", none, some "SAMPLE", none, none⟩

/-- A freshly constructed, disconnected handler with complete configuration. -/
def st0 : HandlerState := ⟨fullData, none, false⟩

/-- A disconnected handler whose configuration misses `password`. -/
def stMiss : HandlerState := ⟨missingData, none, false⟩

/-- A handler already holding an open connection (handle 7). -/
def stConn : HandlerState := ⟨fullData, some 7, true⟩

/-- A driver whose `pconnect` always raises a communication error. -/
def failDriver : Driver :=
  ⟨fun _ => .error "SQL30081N  A communication error has been detected.",
   fun _ _ => .error "no connection"⟩

/-- A driver that connects (handle 1) and whose `execute` always raises. -/
def errExecDriver : Driver :=
  ⟨fun _ => .ok 1, fun _ _ => .error "SQL0204N  T IS AN UNDEFINED NAME."⟩

/-- The outcome of a SELECT-style statement: a result set with two
described columns and two fetched rows. -/
def selectOutcome : ExecOutcome :=
  ⟨true, [("ID", "INTEGER"), ("NAME", "VARCHAR")], [["1", "A"], ["2", "B"]]⟩

/-- A driver that connects (handle 1) and reports `selectOutcome` for
every statement. -/
def selectDriver : Driver := ⟨fun _ => .ok 1, fun _ _ => .ok selectOutcome⟩

/-- A driver that connects (handle 1) and reports a statement that
produced no result set. -/
def dmlDriver : Driver := ⟨fun _ => .ok 1, fun _ _ => .ok ⟨false, [], []⟩⟩

/-- The connection string built from `fullData`. -/
def connStr0 : String := buildConnectionString fullData

/-- The state reached from `st0` after a successful `pconnect` giving handle 1. -/
def st1 : HandlerState := ⟨fullData, some 1, true⟩

/-- The state after `st1` is disconnected again (handle kept, flag cleared). -/
def st1closed : HandlerState := ⟨fullData, some 1, false⟩

/-! ### Inversion lemmas about `connect` and `disconnect` -/

namespace DB2Handler

theorem connect_ok_some (drv : Driver) (s : HandlerState) (c : Nat)
    (s1 : HandlerState) (ev1 : List Event)
    (h : connect drv s = (.ok (some c), s1, ev1)) :
    s1.is_connected = true ∧ s1.connection = some c := by
  unfold connect at h
  split at h
  · next hc =>
    simp only [Prod.mk.injEq, Except.ok.injEq] at h
    obtain ⟨h1, h2, h3⟩ := h
    subst h2
    exact ⟨hc, h1⟩
  · split at h
    · simp at h
    · split at h
      · next c' heq =>
        simp only [Prod.mk.injEq, Except.ok.injEq, Option.some.injEq] at h
        obtain ⟨h1, h2, h3⟩ := h
        subst h2
        subst h1
        exact ⟨rfl, rfl⟩
      · simp at h

theorem connect_error_state (drv : Driver) (s : HandlerState) (e : PyExn)
    (s1 : HandlerState) (ev1 : List Event)
    (h : connect drv s = (.error e, s1, ev1)) :
    s1 = s ∧ ev1 = [] := by
  unfold connect at h
  split at h
  · simp at h
  · split at h
    · simp only [Prod.mk.injEq, Except.error.injEq] at h
      exact ⟨h.2.1.symm, h.2.2.symm⟩
    · split at h <;> simp at h

theorem connect_events_shape (drv : Driver) (s : HandlerState)
    (r : Except PyExn (Option Nat)) (s1 : HandlerState) (ev1 : List Event)
    (h : connect drv s = (r, s1, ev1)) :
    ev1 = [] ∨ ∃ cs, ev1 = [Event.pconnectCall cs] := by
  unfold connect at h
  split at h
  · simp only [Prod.mk.injEq] at h
    exact Or.inl h.2.2.symm
  · split at h
    · simp only [Prod.mk.injEq] at h
      exact Or.inl h.2.2.symm
    · split at h <;>
      · simp only [Prod.mk.injEq] at h
        exact Or.inr ⟨_, h.2.2.symm⟩

theorem connect_preserves_inv (drv : Driver) (s : HandlerState)
    (r : Except PyExn (Option Nat)) (s1 : HandlerState) (ev1 : List Event)
    (h : connect drv s = (r, s1, ev1))
    (hinv : s.is_connected = true → s.connection.isSome = true) :
    s1.is_connected = true → s1.connection.isSome = true := by
  unfold connect at h
  split at h
  · simp only [Prod.mk.injEq] at h
    exact h.2.1 ▸ hinv
  · split at h
    · simp only [Prod.mk.injEq] at h
      exact h.2.1 ▸ hinv
    · split at h <;> simp only [Prod.mk.injEq] at h
      · obtain ⟨h1, h2, h3⟩ := h
        subst h2
        intro _
        rfl
      · exact h.2.1 ▸ hinv

theorem disconnect_ok_flag (s : HandlerState) (u : Unit)
    (s2 : HandlerState) (ev : List Event)
    (h : disconnect s = (.ok u, s2, ev)) :
    s2.is_connected = false := by
  unfold disconnect at h
  split at h
  · next hc =>
    simp only [Prod.mk.injEq] at h
    exact h.2.1 ▸ hc
  · split at h
    · simp at h
    · simp only [Prod.mk.injEq] at h
      obtain ⟨h1, h2, h3⟩ := h
      subst h2
      rfl

theorem disconnect_of_not_connected (s : HandlerState)
    (h : s.is_connected = false) :
    disconnect s = (.ok (), s, []) := by
  unfold disconnect
  simp [h]

theorem disconnect_of_connected (s : HandlerState) (c : Nat)
    (hc : s.is_connected = true) (hs : s.connection = some c) :
    disconnect s = (.ok (), { s with is_connected := false }, [Event.closeCall]) := by
  unfold disconnect
  simp [hc, hs]

theorem disconnect_ok_of_inv (s : HandlerState)
    (hinv : s.is_connected = true → s.connection.isSome = true) :
    ∃ s2 ev, disconnect s = (.ok (), s2, ev) ∧ s2.is_connected = false := by
  by_cases hc : s.is_connected = true
  · obtain ⟨c, hs⟩ := Option.isSome_iff_exists.mp (hinv hc)
    exact ⟨_, _, disconnect_of_connected s c hc hs, rfl⟩
  · have hc' : s.is_connected = false := by
      cases hb : s.is_connected
      · rfl
      · exact absurd hb hc
    exact ⟨s, [], disconnect_of_not_connected s hc', hc'⟩

theorem disconnect_events_shape (s : HandlerState) (r : Except PyExn Unit)
    (s2 : HandlerState) (ev : List Event)
    (h : disconnect s = (r, s2, ev)) :
    ev = [] ∨ ev = [Event.closeCall] := by
  unfold disconnect at h
  split at h
  · simp only [Prod.mk.injEq] at h
    exact Or.inl h.2.2.symm
  · split at h <;> simp only [Prod.mk.injEq] at h
    · exact Or.inl h.2.2.symm
    · exact Or.inr h.2.2.symm

theorem close_if_needed_ok_state (b : Bool) (resp resp' : Response)
    (s1 s2 : HandlerState) (ev ev' : List Event)
    (h : close_if_needed b resp s1 ev = (.ok resp', s2, ev')) :
    (b = true ∧ s2.is_connected = false) ∨ (b = false ∧ s2 = s1) := by
  unfold close_if_needed at h
  split at h
  · next hb =>
    split at h
    · next heq =>
      simp only [Prod.mk.injEq] at h
      exact Or.inl ⟨hb, h.2.1 ▸ disconnect_ok_flag s1 _ _ _ heq⟩
    · simp at h
  · next hb =>
    simp only [Prod.mk.injEq] at h
    exact Or.inr ⟨Bool.not_eq_true b ▸ hb, h.2.1.symm⟩

theorem close_if_needed_events (b : Bool) (resp : Response)
    (s1 : HandlerState) (ev : List Event)
    (r : Except PyExn Response) (s2 : HandlerState) (ev' : List Event)
    (h : close_if_needed b resp s1 ev = (r, s2, ev')) :
    ev' = ev ∨ ev' = ev ++ [Event.closeCall] := by
  unfold close_if_needed at h
  split at h
  · split at h <;> next heq =>
      simp only [Prod.mk.injEq] at h
      rcases disconnect_events_shape s1 _ _ _ heq with h3 | h3 <;>
        rw [← h.2.2, h3]
      · exact Or.inl (List.append_nil ev)
      · exact Or.inr rfl
  · simp only [Prod.mk.injEq] at h
    exact Or.inl h.2.2.symm

theorem close_if_needed_false (resp : Response) (s1 : HandlerState)
    (ev : List Event) :
    close_if_needed false resp s1 ev = (.ok resp, s1, ev) := by
  simp [close_if_needed]

theorem close_if_needed_true_of_connected (resp : Response) (s1 : HandlerState)
    (c : Nat) (ev : List Event)
    (hc : s1.is_connected = true) (hs : s1.connection = some c) :
    close_if_needed true resp s1 ev =
      (.ok resp, { s1 with is_connected := false }, ev ++ [Event.closeCall]) := by
  simp [close_if_needed, disconnect_of_connected s1 c hc hs]

theorem native_query_conn_error (drv : Driver) (s : HandlerState) (q : String)
    (e : PyExn) (s1 : HandlerState) (ev1 : List Event)
    (h : connect drv s = (.error e, s1, ev1)) :
    native_query drv s q = (.error e, s1, ev1) := by
  unfold native_query
  rw [h]

theorem native_query_conn_none (drv : Driver) (s : HandlerState) (q : String)
    (s1 : HandlerState) (ev1 : List Event)
    (h : connect drv s = (.ok none, s1, ev1)) :
    native_query drv s q =
      (.error (.attributeError "NoneType object has no attribute cursor"), s1, ev1) := by
  unfold native_query
  rw [h]

theorem native_query_exec_table (drv : Driver) (s : HandlerState) (q : String)
    (c : Nat) (s1 : HandlerState) (ev1 : List Event) (out : ExecOutcome)
    (hconn : connect drv s = (.ok (some c), s1, ev1))
    (hex : drv.execute c (pyUpper q) = .ok out)
    (hrs : out.resultSetProduced = true) :
    native_query drv s q =
      close_if_needed (!s.is_connected)
        (Response.mkTable ⟨out.description.map (fun x => x.1), out.rows⟩)
        s1 (ev1 ++ [Event.executeCall (pyUpper q), Event.commitCall]) := by
  unfold native_query
  rw [hconn]
  simp [hex, hrs]

theorem native_query_exec_ok (drv : Driver) (s : HandlerState) (q : String)
    (c : Nat) (s1 : HandlerState) (ev1 : List Event) (out : ExecOutcome)
    (hconn : connect drv s = (.ok (some c), s1, ev1))
    (hex : drv.execute c (pyUpper q) = .ok out)
    (hrs : out.resultSetProduced = false) :
    native_query drv s q =
      close_if_needed (!s.is_connected) Response.mkOk
        s1 (ev1 ++ [Event.executeCall (pyUpper q), Event.commitCall]) := by
  unfold native_query
  rw [hconn]
  simp [hex, hrs]

theorem native_query_exec_error (drv : Driver) (s : HandlerState) (q : String)
    (c : Nat) (s1 : HandlerState) (ev1 : List Event) (msg : String)
    (hconn : connect drv s = (.ok (some c), s1, ev1))
    (hex : drv.execute c (pyUpper q) = .error msg) :
    native_query drv s q =
      close_if_needed (!s.is_connected) (Response.mkError msg)
        s1 (ev1 ++ [Event.executeCall (pyUpper q), Event.rollbackCall]) := by
  unfold native_query
  rw [hconn]
  simp [hex]

end DB2Handler

namespace DB2Handler

theorem close_if_needed_mem (b : Bool) (resp : Response) (s1 : HandlerState)
    (ev : List Event) (e : Event)
    (he : e ∈ (close_if_needed b resp s1 ev).2.2) :
    e ∈ ev ∨ e = Event.closeCall := by
  rcases hcl : close_if_needed b resp s1 ev with ⟨r, s2, ev'⟩
  rw [hcl] at he
  rcases close_if_needed_events b resp s1 ev r s2 ev' hcl with h1 | h1 <;> subst h1
  · exact Or.inl he
  · rcases List.mem_append.mp he with h2 | h2
    · exact Or.inl h2
    · simp only [List.mem_singleton] at h2
      exact Or.inr h2

end DB2Handler

/-! ### The claims -/

/-- Claim C1, code-bug exhibit: with complete connection data and a driver
whose `pconnect` raises a communication error, `check_connection` returns a
SUCCESS status with no error message, although the final state shows that
no connection was established (the flag stays false and the handle stays
`none`).  The reason is that `connect` catches the driver exception and
only logs it, so the `except` branch of `check_connection` never sees a
driver failure — contrary to this claim and to the docstring of `connect`,
which says it raises `OperationalError` on a connection error. -/
theorem check_connection_success_despite_driver_failure :
    DB2Handler.check_connection failDriver st0 =
      (.ok ⟨true, none⟩, st0, [Event.pconnectCall connStr0]) ∧
    failDriver.pconnect connStr0 =
      .error "SQL30081N  A communication error has been detected." :=
  ⟨rfl, rfl⟩

/-- Claim C2: when the handler is not connected and any of the four
required keys (host, user, password, database) is missing, `connect`
raises the `ValueError` with the fixed configuration message, leaves the
handler state unchanged, and makes no driver call at all (the event trace
is empty, so no connection string reached the driver). -/
theorem connect_missing_required_key (drv : Driver) (s : HandlerState)
    (hnc : s.is_connected = false)
    (hmiss : hasRequired s.connection_data = false) :
    DB2Handler.connect drv s =
      (.error (.valueError "Required parameters (host, user, password, database) must be provided."), s, []) := by
  simp [DB2Handler.connect, hnc, hmiss]

/-- Witness for C2: a concrete configuration missing `password`. -/
theorem connect_missing_required_key_witness :
    DB2Handler.connect failDriver stMiss =
      (.error (.valueError "Required parameters (host, user, password, database) must be provided."), stMiss, []) :=
  connect_missing_required_key failDriver stMiss rfl rfl

/-- Claim C3: `native_query` uppercases the whole query text before
executing it: any two texts with the same uppercasing produce identical
results (state, trace and response), and every `execute` call in the
driver trace carries the uppercased text rather than the original, so
case-sensitive content such as quoted string literals is not preserved. -/
theorem native_query_uppercases_query (drv : Driver) (s : HandlerState)
    (q q' : String) (h : (pyUpper q) = (pyUpper q')) :
    DB2Handler.native_query drv s q = DB2Handler.native_query drv s q' ∧
    ∀ t, Event.executeCall t ∈ (DB2Handler.native_query drv s q).2.2 →
      t = (pyUpper q) := by
  constructor
  · unfold DB2Handler.native_query
    rw [h]
  · intro t ht
    rcases hc : DB2Handler.connect drv s with ⟨r, s1, ev1⟩
    have hne : Event.executeCall t ∉ ev1 := by
      rcases DB2Handler.connect_events_shape drv s r s1 ev1 hc with h1 | ⟨cs, h1⟩ <;>
        subst h1 <;> simp
    match r with
    | .error e =>
      rw [DB2Handler.native_query_conn_error drv s q e s1 ev1 hc] at ht
      exact absurd ht hne
    | .ok none =>
      rw [DB2Handler.native_query_conn_none drv s q s1 ev1 hc] at ht
      exact absurd ht hne
    | .ok (some c) =>
      match hx : drv.execute c (pyUpper q) with
      | .ok out =>
        by_cases hrs : out.resultSetProduced = true
        · rw [DB2Handler.native_query_exec_table drv s q c s1 ev1 out hc hx hrs] at ht
          rcases DB2Handler.close_if_needed_mem _ _ _ _ _ ht with h2 | h2
          · rcases List.mem_append.mp h2 with h3 | h3
            · exact absurd h3 hne
            · simpa using h3
          · simp at h2
        · rw [DB2Handler.native_query_exec_ok drv s q c s1 ev1 out hc hx
            (Bool.not_eq_true out.resultSetProduced ▸ hrs)] at ht
          rcases DB2Handler.close_if_needed_mem _ _ _ _ _ ht with h2 | h2
          · rcases List.mem_append.mp h2 with h3 | h3
            · exact absurd h3 hne
            · simpa using h3
          · simp at h2
      | .error msg =>
        rw [DB2Handler.native_query_exec_error drv s q c s1 ev1 msg hc hx] at ht
        rcases DB2Handler.close_if_needed_mem _ _ _ _ _ ht with h2 | h2
        · rcases List.mem_append.mp h2 with h3 | h3
          · exact absurd h3 hne
          · simpa using h3
        · simp at h2

/-- Witness for C3: two spellings of the same SELECT statement. -/
theorem native_query_uppercases_query_witness :
    DB2Handler.native_query selectDriver st0 "Select a From t" =
        DB2Handler.native_query selectDriver st0 "sELECT A fROM T" ∧
    ∀ t, Event.executeCall t ∈
        (DB2Handler.native_query selectDriver st0 "Select a From t").2.2 →
      t = (pyUpper "Select a From t") :=
  native_query_uppercases_query selectDriver st0 "Select a From t" "sELECT A fROM T"
    (by decide)

/-- Claim C4: when executing the statement raises a driver exception,
`native_query` returns an ERROR response whose message is exactly the
exception text, and the trace shows a `rollback` on the connection and no
`commit`, so the transaction is undone. -/
theorem native_query_failure_rolls_back (drv : Driver) (s : HandlerState)
    (q msg : String) (c : Nat) (s1 : HandlerState) (ev1 : List Event)
    (hconn : DB2Handler.connect drv s = (.ok (some c), s1, ev1))
    (hex : drv.execute c (pyUpper q) = .error msg) :
    (DB2Handler.native_query drv s q).1 = .ok (Response.mkError msg) ∧
    Event.rollbackCall ∈ (DB2Handler.native_query drv s q).2.2 ∧
    Event.commitCall ∉ (DB2Handler.native_query drv s q).2.2 := by
  have heq := DB2Handler.native_query_exec_error drv s q c s1 ev1 msg hconn hex
  obtain ⟨hs1c, hs1conn⟩ := DB2Handler.connect_ok_some drv s c s1 ev1 hconn
  have hcne : Event.commitCall ∉ ev1 := by
    rcases DB2Handler.connect_events_shape drv s _ s1 ev1 hconn with h1 | ⟨cs, h1⟩ <;>
      subst h1 <;> simp
  cases hsb : s.is_connected with
  | false =>
    rw [hsb, Bool.not_false,
      DB2Handler.close_if_needed_true_of_connected _ s1 c _ hs1c hs1conn] at heq
    rw [heq]
    refine ⟨rfl, by simp, ?_⟩
    simp [List.mem_append, hcne]
  | true =>
    rw [hsb, Bool.not_true, DB2Handler.close_if_needed_false] at heq
    rw [heq]
    refine ⟨rfl, by simp, ?_⟩
    simp [List.mem_append, hcne]

/-- Witness for C4: a concrete statement whose execution raises. -/
theorem native_query_failure_rolls_back_witness :
    (DB2Handler.native_query errExecDriver st0 "drop table x").1 =
      .ok (Response.mkError "SQL0204N  T IS AN UNDEFINED NAME.") ∧
    Event.rollbackCall ∈ (DB2Handler.native_query errExecDriver st0 "drop table x").2.2 ∧
    Event.commitCall ∉ (DB2Handler.native_query errExecDriver st0 "drop table x").2.2 :=
  native_query_failure_rolls_back errExecDriver st0 "drop table x"
    "SQL0204N  T IS AN UNDEFINED NAME." 1 st1 [Event.pconnectCall connStr0] rfl rfl

/-- Claim C5: for a statement the driver reports as producing a result
set, a successful `native_query` returns a TABLE response whose data frame
has exactly the first element of each `description` entry as column names,
in order, and exactly the `fetchall` rows as rows (hence the same row
count as the driver returned). -/
theorem native_query_select_returns_table (drv : Driver) (s : HandlerState)
    (q : String) (c : Nat) (s1 : HandlerState) (ev1 : List Event)
    (out : ExecOutcome)
    (hconn : DB2Handler.connect drv s = (.ok (some c), s1, ev1))
    (hex : drv.execute c (pyUpper q) = .ok out)
    (hrs : out.resultSetProduced = true) :
    (DB2Handler.native_query drv s q).1 =
      .ok (Response.mkTable ⟨out.description.map (fun x => x.1), out.rows⟩) := by
  have heq := DB2Handler.native_query_exec_table drv s q c s1 ev1 out hconn hex hrs
  obtain ⟨hs1c, hs1conn⟩ := DB2Handler.connect_ok_some drv s c s1 ev1 hconn
  cases hsb : s.is_connected with
  | false =>
    rw [hsb, Bool.not_false,
      DB2Handler.close_if_needed_true_of_connected _ s1 c _ hs1c hs1conn] at heq
    rw [heq]
  | true =>
    rw [hsb, Bool.not_true, DB2Handler.close_if_needed_false] at heq
    rw [heq]

/-- Witness for C5: a concrete SELECT against `selectDriver`. -/
theorem native_query_select_returns_table_witness :
    (DB2Handler.native_query selectDriver st0 "select a from t").1 =
      .ok (Response.mkTable
        ⟨selectOutcome.description.map (fun x => x.1), selectOutcome.rows⟩) :=
  native_query_select_returns_table selectDriver st0 "select a from t" 1 st1
    [Event.pconnectCall connStr0] selectOutcome rfl rfl rfl

/-- Claim C6: for a statement the driver reports as producing no result
set, a successful `native_query` returns an OK response with no data
frame, and the trace contains exactly one `commit` (after the execute). -/
theorem native_query_no_result_set_ok (drv : Driver) (s : HandlerState)
    (q : String) (c : Nat) (s1 : HandlerState) (ev1 : List Event)
    (out : ExecOutcome)
    (hconn : DB2Handler.connect drv s = (.ok (some c), s1, ev1))
    (hex : drv.execute c (pyUpper q) = .ok out)
    (hrs : out.resultSetProduced = false) :
    (DB2Handler.native_query drv s q).1 = .ok Response.mkOk ∧
    Response.mkOk.data_frame = none ∧
    (DB2Handler.native_query drv s q).2.2.count Event.commitCall = 1 := by
  have heq := DB2Handler.native_query_exec_ok drv s q c s1 ev1 out hconn hex hrs
  obtain ⟨hs1c, hs1conn⟩ := DB2Handler.connect_ok_some drv s c s1 ev1 hconn
  have hcnt : ev1.count Event.commitCall = 0 := by
    rcases DB2Handler.connect_events_shape drv s _ s1 ev1 hconn with h1 | ⟨cs, h1⟩ <;>
      subst h1 <;> simp
  cases hsb : s.is_connected with
  | false =>
    rw [hsb, Bool.not_false,
      DB2Handler.close_if_needed_true_of_connected _ s1 c _ hs1c hs1conn] at heq
    rw [heq]
    refine ⟨rfl, rfl, ?_⟩
    simp [List.count_append, hcnt]
  | true =>
    rw [hsb, Bool.not_true, DB2Handler.close_if_needed_false] at heq
    rw [heq]
    refine ⟨rfl, rfl, ?_⟩
    simp [List.count_append, hcnt]

/-- Witness for C6: a concrete DML statement against `dmlDriver`. -/
theorem native_query_no_result_set_ok_witness :
    (DB2Handler.native_query dmlDriver st0 "delete from t").1 = .ok Response.mkOk ∧
    Response.mkOk.data_frame = none ∧
    (DB2Handler.native_query dmlDriver st0 "delete from t").2.2.count Event.commitCall = 1 :=
  native_query_no_result_set_ok dmlDriver st0 "delete from t" 1 st1
    [Event.pconnectCall connStr0] ⟨false, [], []⟩ rfl rfl rfl

/-- Claim C7: a `connect` call that ends with an open driver connection
leaves `is_connected` true; any `disconnect` call (on a state satisfying
the handler invariant that a set flag comes with a stored handle) leaves
`is_connected` false; and `disconnect` on a disconnected handler is a
no-op: it returns normally, changes nothing, and emits no `close` call. -/
theorem connect_disconnect_flag (drv : Driver) (s t : HandlerState)
    (c : Nat) (s1 t1 : HandlerState) (ev ev' : List Event)
    (r : Except PyExn Unit)
    (hinv : t.is_connected = true → t.connection.isSome = true)
    (hc : DB2Handler.connect drv s = (.ok (some c), s1, ev))
    (hd : DB2Handler.disconnect t = (r, t1, ev')) :
    s1.is_connected = true ∧ t1.is_connected = false ∧
    (t.is_connected = false → r = .ok () ∧ t1 = t ∧ ev' = []) := by
  obtain ⟨hs1c, _⟩ := DB2Handler.connect_ok_some drv s c s1 ev hc
  refine ⟨hs1c, ?_, ?_⟩
  · obtain ⟨s2, ev2, hde, hflag⟩ := DB2Handler.disconnect_ok_of_inv t hinv
    rw [hd] at hde
    simp only [Prod.mk.injEq] at hde
    exact hde.2.1 ▸ hflag
  · intro ht
    have := DB2Handler.disconnect_of_not_connected t ht
    rw [hd] at this
    simp only [Prod.mk.injEq] at this
    exact ⟨this.1, this.2.1, this.2.2⟩

/-- Witness for C7: connecting from `st0` and disconnecting the already
disconnected `st0`. -/
theorem connect_disconnect_flag_witness :
    st1.is_connected = true ∧ st0.is_connected = false ∧
    (st0.is_connected = false →
      (.ok () : Except PyExn Unit) = .ok () ∧ st0 = st0 ∧ ([] : List Event) = []) :=
  connect_disconnect_flag selectDriver st0 st0 1 st1 st0
    [Event.pconnectCall connStr0] [] (.ok ())
    (fun h => absurd h (by decide)) rfl rfl

/-- Claim C8: whenever `native_query` returns (rather than raising), the
connection flag afterwards equals the flag beforehand: a call that found
the handler disconnected leaves it disconnected again, and a call that
found it connected leaves it connected. -/
theorem native_query_restores_connection_state (drv : Driver)
    (s : HandlerState) (q : String) (resp : Response) (s' : HandlerState)
    (ev : List Event)
    (h : DB2Handler.native_query drv s q = (.ok resp, s', ev)) :
    s'.is_connected = s.is_connected := by
  rcases hc : DB2Handler.connect drv s with ⟨r, s1, ev1⟩
  match r with
  | .error e =>
    rw [DB2Handler.native_query_conn_error drv s q e s1 ev1 hc] at h
    simp at h
  | .ok none =>
    rw [DB2Handler.native_query_conn_none drv s q s1 ev1 hc] at h
    simp at h
  | .ok (some c) =>
    obtain ⟨hs1c, hs1conn⟩ := DB2Handler.connect_ok_some drv s c s1 ev1 hc
    have key : ∀ R EV,
        DB2Handler.close_if_needed (!s.is_connected) R s1 EV = (.ok resp, s', ev) →
        s'.is_connected = s.is_connected := by
      intro R EV hcl
      rcases DB2Handler.close_if_needed_ok_state (!s.is_connected) R resp s1 s' EV ev hcl
        with ⟨hb, hflag⟩ | ⟨hb, hseq⟩
      · have hsf : s.is_connected = false := by
          cases hsb : s.is_connected
          · rfl
          · rw [hsb] at hb
            simp at hb
        rw [hflag, hsf]
      · have hst : s.is_connected = true := by
          cases hsb : s.is_connected
          · rw [hsb] at hb
            simp at hb
          · rfl
        rw [hseq, hs1c, hst]
    match hx : drv.execute c (pyUpper q) with
    | .ok out =>
      by_cases hrs : out.resultSetProduced = true
      · rw [DB2Handler.native_query_exec_table drv s q c s1 ev1 out hc hx hrs] at h
        exact key _ _ h
      · rw [DB2Handler.native_query_exec_ok drv s q c s1 ev1 out hc hx
          (Bool.not_eq_true out.resultSetProduced ▸ hrs)] at h
        exact key _ _ h
    | .error msg =>
      rw [DB2Handler.native_query_exec_error drv s q c s1 ev1 msg hc hx] at h
      exact key _ _ h

/-- Witness for C8: a SELECT from the disconnected `st0` ends disconnected. -/
theorem native_query_restores_connection_state_witness :
    st1closed.is_connected = st0.is_connected :=
  native_query_restores_connection_state selectDriver st0 "select a from t"
    (Response.mkTable ⟨["ID", "NAME"], [["1", "A"], ["2", "B"]]⟩) st1closed
    [Event.pconnectCall connStr0, Event.executeCall "SELECT A FROM T",
      Event.commitCall, Event.closeCall] rfl

/-- Claim C9: a `check_connection` call on a disconnected handler returns
normally (whatever the outcome of the check) and leaves the handler
disconnected again: the connection opened solely for the check is closed. -/
theorem DB2Handler.check_connection_ok_eq (drv : Driver) (s : HandlerState)
    (v : Option Nat) (s1 : HandlerState) (ev1 : List Event)
    (hc : DB2Handler.connect drv s = (.ok v, s1, ev1))
    (h : s.is_connected = false)
    (s2 : HandlerState) (ev2 : List Event) (u : Unit)
    (hd : DB2Handler.disconnect s1 = (.ok u, s2, ev2)) :
    DB2Handler.check_connection drv s = (.ok ⟨true, none⟩, s2, ev1 ++ ev2) := by
  unfold DB2Handler.check_connection
  rw [hc]
  simp [h, hd]

theorem DB2Handler.check_connection_error_eq (drv : Driver) (s : HandlerState)
    (e : PyExn) (s1 : HandlerState) (ev1 : List Event)
    (hc : DB2Handler.connect drv s = (.error e, s1, ev1))
    (h1 : s1.is_connected = false) :
    DB2Handler.check_connection drv s = (.ok ⟨false, some e.msg⟩, s1, ev1) := by
  unfold DB2Handler.check_connection
  rw [hc]
  simp [h1]

theorem check_connection_leaves_disconnected (drv : Driver)
    (s : HandlerState) (h : s.is_connected = false) :
    ∃ rc, (DB2Handler.check_connection drv s).1 = .ok rc ∧
      (DB2Handler.check_connection drv s).2.1.is_connected = false := by
  rcases hc : DB2Handler.connect drv s with ⟨r, s1, ev1⟩
  have hinv1 : s1.is_connected = true → s1.connection.isSome = true :=
    DB2Handler.connect_preserves_inv drv s r s1 ev1 hc
      (fun hh => absurd hh (by rw [h]; exact Bool.false_ne_true))
  match r with
  | .ok v =>
    obtain ⟨s2, ev2, hd, hflag⟩ := DB2Handler.disconnect_ok_of_inv s1 hinv1
    rw [DB2Handler.check_connection_ok_eq drv s v s1 ev1 hc h s2 ev2 () hd]
    exact ⟨⟨true, none⟩, rfl, hflag⟩
  | .error e =>
    obtain ⟨hs1, _⟩ := DB2Handler.connect_error_state drv s e s1 ev1 hc
    rw [DB2Handler.check_connection_error_eq drv s e s1 ev1 hc (by rw [hs1]; exact h)]
    exact ⟨⟨false, some e.msg⟩, rfl, by rw [hs1]; exact h⟩

/-- Witness for C9: a failed check from `st0` leaves it disconnected. -/
theorem check_connection_leaves_disconnected_witness :
    ∃ rc, (DB2Handler.check_connection failDriver st0).1 = .ok rc ∧
      (DB2Handler.check_connection failDriver st0).2.1.is_connected = false :=
  check_connection_leaves_disconnected failDriver st0 rfl

/-- Claim C10: `query` renders the abstract node with the external
DB2-dialect renderer and returns exactly what `native_query` returns on
the rendered text — response, final state and driver trace alike — doing
no execution work of its own (`querySpec` is the spec-side statement of
this delegation). -/
theorem query_delegates_to_native_query (drv : Driver)
    (render : DB2Handler.ASTNode → String) (s : HandlerState)
    (q : DB2Handler.ASTNode) :
    DB2Handler.query drv render s q = querySpec drv render s q := rfl
